import Mathlib

/-!
Verification of the Dynablox `Evaluator` (src/lidar_motion_detection/src/
evaluation/evaluator.cpp) against its natural-language specification.

Shallow embedding conventions:
* C++ `float` values (sensor distances, metric scores) are modelled as `ℚ`
  with exact arithmetic; the control flow over them is untouched.
* C++ `uint` / `int` counters are modelled as `Nat` (counts of points of a
  cloud; overflow is unreachable for any cloud that fits in memory).
* File contents are modelled structurally: the scores file as a list of
  rows, the ranges file as four lines of distances, the timings file as an
  opaque string.
* The external ground-truth handler (`labelCloudInfoIfAvailable`) and the
  timing collector are opaque collaborators; they are parameters of
  `evaluateFrame` (a handler returning the relabelled cloud when ground
  truth is available, and the current timing snapshot).
-/

namespace MotionDetection

/-- Per-point record, mirroring the fields of `PointInfo` that
`evaluator.cpp` reads or writes. -/
structure PointInfo where
  distance_to_sensor : ℚ
  ready_for_evaluation : Bool
  ever_free_level_dynamic : Bool
  cluster_level_dynamic : Bool
  object_level_dynamic : Bool
  ground_truth_dynamic : Bool
deriving DecidableEq, Repr

/-- Mirrors `CloudInfo`: a timestamp and the ordered points of the frame. -/
structure CloudInfo where
  timestamp : Nat
  points : List PointInfo
deriving DecidableEq, Repr

/-- The configuration fields of `Evaluator::Config` used by the evaluator. -/
structure Config where
  output_directory : String
  min_range : ℚ
  max_range : ℚ
  evaluate_point_level : Bool
  evaluate_cluster_level : Bool
  evaluate_object_level : Bool
  evaluate_ranges : Bool
deriving Repr

/-- `Evaluator::computePrecision` (evaluator.cpp:238-243):
returns 1 when `tp + fp == 0`, otherwise `tp / (tp + fp)`. -/
def computePrecision (tp fp : Nat) : ℚ :=
  if tp + fp = 0 then 1
  else (tp : ℚ) / ((tp : ℚ) + (fp : ℚ))

/-- `Evaluator::computeRecall` (evaluator.cpp:245-250):
returns 1 when `tp + fn == 0`, otherwise `tp / (tp + fn)`. -/
def computeRecall (tp fn : Nat) : ℚ :=
  if tp + fn = 0 then 1
  else (tp : ℚ) / ((tp : ℚ) + (fn : ℚ))

/-- `Evaluator::computeIntersectionOverUnion` (evaluator.cpp:252-258):
returns 1 when `tp + fp + fn == 0`, otherwise `tp / (tp + fp + fn)`. -/
def computeIntersectionOverUnion (tp fp fn : Nat) : ℚ :=
  if tp + fp + fn = 0 then 1
  else (tp : ℚ) / ((tp : ℚ) + (fp : ℚ) + (fn : ℚ))

/-- The loop condition of `Evaluator::filterEvaluatedPoints`
(evaluator.cpp:180-181): the point's distance lies in
`[min_range, max_range]`. -/
def inRange (cfg : Config) (p : PointInfo) : Bool :=
  decide (cfg.min_range ≤ p.distance_to_sensor) &&
    decide (p.distance_to_sensor ≤ cfg.max_range)

/-- The body of the loop of `Evaluator::filterEvaluatedPoints`
(evaluator.cpp:179-185) on one point and the running counter: an in-range
point gets `ready_for_evaluation` set to `true` and increments the counter;
any other point is left untouched. -/
def filterStep (cfg : Config) (p : PointInfo) : PointInfo × Nat :=
  if inRange cfg p then
    ({ p with ready_for_evaluation := true }, 1)
  else (p, 0)

/-- `Evaluator::filterEvaluatedPoints` (evaluator.cpp:177-187) on the point
list: one pass that flags the in-range points and counts them. -/
def filterEvaluatedPointsList (cfg : Config) : List PointInfo → List PointInfo × Nat
  | [] => ([], 0)
  | p :: rest =>
    let step := filterStep cfg p
    let restResult := filterEvaluatedPointsList cfg rest
    (step.1 :: restResult.1, step.2 + restResult.2)

/-- `Evaluator::filterEvaluatedPoints` (evaluator.cpp:177-187): mutates the
cloud in place (returned as first component) and returns the number of
points inside `[min_range, max_range]`. -/
def filterEvaluatedPoints (cfg : Config) (c : CloudInfo) : CloudInfo × Nat :=
  let r := filterEvaluatedPointsList cfg c.points
  ({ c with points := r.1 }, r.2)

/-- The four counters of one confusion matrix
(`tp`/`fp`/`tn`/`fn` of evaluator.cpp:212-215). -/
structure ConfusionMatrix where
  tp : Nat
  fp : Nat
  tn : Nat
  fn : Nat
deriving DecidableEq, Repr

/-- The level dispatch of `Evaluator::evaluateCloudAtLevel`
(evaluator.cpp:193-209): selects the prediction field for a known level
name, `none` for an unknown one (the `LOG(ERROR)`-and-return branch). -/
def checkLevel (level : String) : Option (PointInfo → Bool) :=
  if level = "point" then some (fun p => p.ever_free_level_dynamic)
  else if level = "cluster" then some (fun p => p.cluster_level_dynamic)
  else if level = "object" then some (fun p => p.object_level_dynamic)
  else none

/-- The counting loop of `Evaluator::evaluateCloudAtLevel`
(evaluator.cpp:216-230): points not ready for evaluation are skipped, the
rest increment exactly the counter selected by the prediction crossed with
the ground truth. -/
def countMatrix (check : PointInfo → Bool) : List PointInfo → ConfusionMatrix
  | [] => ⟨0, 0, 0, 0⟩
  | p :: rest =>
    let m := countMatrix check rest
    if !p.ready_for_evaluation then m
    else
      let is_dynamic := check p
      if is_dynamic && p.ground_truth_dynamic then { m with tp := m.tp + 1 }
      else if is_dynamic && !p.ground_truth_dynamic then { m with fp := m.fp + 1 }
      else if !is_dynamic && !p.ground_truth_dynamic then { m with tn := m.tn + 1 }
      else if !is_dynamic && p.ground_truth_dynamic then { m with fn := m.fn + 1 }
      else m

/-- The columns `evaluateCloudAtLevel` writes for one level
(evaluator.cpp:233-235): IoU, precision, recall, tp, tn, fp, fn, in file
order. -/
structure ScoreColumns where
  iou : ℚ
  precisionScore : ℚ
  recallScore : ℚ
  tp : Nat
  tn : Nat
  fp : Nat
  fn : Nat
deriving DecidableEq, Repr

/-- `Evaluator::evaluateCloudAtLevel` (evaluator.cpp:189-236): for a known
level, count the confusion matrix over the ready points and emit the metric
columns; for an unknown level, report and return without writing anything
(`none`). -/
def evaluateCloudAtLevel (c : CloudInfo) (level : String) : Option ScoreColumns :=
  match checkLevel level with
  | none => none
  | some check =>
    let m := countMatrix check c.points
    some ⟨computeIntersectionOverUnion m.tp m.fp m.fn,
          computePrecision m.tp m.fp, computeRecall m.tp m.fn,
          m.tp, m.tn, m.fp, m.fn⟩

/-- The four range buckets `ranges_[0..3]` (evaluator.cpp:84,145-151):
index 0 collects true positives, 1 false positives, 2 true negatives,
3 false negatives. -/
structure RangesState where
  range0 : List ℚ
  range1 : List ℚ
  range2 : List ℚ
  range3 : List ℚ
deriving DecidableEq, Repr

/-- The accumulation loop body of `Evaluator::evaluateRanges`
(evaluator.cpp:138-153) for one point: skip points not ready for
evaluation; otherwise append the distance to the bucket selected by the
cluster-level prediction crossed with the ground truth. -/
def accumulatePoint (r : RangesState) (p : PointInfo) : RangesState :=
  if !p.ready_for_evaluation then r
  else
    let is_dynamic := p.cluster_level_dynamic
    if is_dynamic && p.ground_truth_dynamic then
      { r with range0 := r.range0 ++ [p.distance_to_sensor] }
    else if is_dynamic && !p.ground_truth_dynamic then
      { r with range1 := r.range1 ++ [p.distance_to_sensor] }
    else if !is_dynamic && !p.ground_truth_dynamic then
      { r with range2 := r.range2 ++ [p.distance_to_sensor] }
    else if !is_dynamic && p.ground_truth_dynamic then
      { r with range3 := r.range3 ++ [p.distance_to_sensor] }
    else r

/-- The accumulation loop of `Evaluator::evaluateRanges`
(evaluator.cpp:138-153), in observation order. -/
def accumulateRanges (r : RangesState) (points : List PointInfo) : RangesState :=
  points.foldl accumulatePoint r

/-- The ranges file contents: the four lines labelled TP, FP, TN, FN, each
holding a list of distances. -/
structure RangesFile where
  tpLine : List ℚ
  fpLine : List ℚ
  tnLine : List ℚ
  fnLine : List ℚ
deriving DecidableEq, Repr

/-- The file-writing tail of `Evaluator::evaluateRanges`
(evaluator.cpp:156-172). Note that the source writes `ranges_[1]` on the
FP line AND on the TN line AND on the FN line (lines 161, 165, 169);
only the TP line reads its own bucket `ranges_[0]`. -/
def writeRangesFile (r : RangesState) : RangesFile :=
  ⟨r.range0, r.range1, r.range1, r.range1⟩

/-- `Evaluator::evaluateRanges` (evaluator.cpp:132-175): fold the cloud's
points into the buckets, then rewrite the whole ranges file from the
updated buckets. -/
def evaluateRanges (r : RangesState) (c : CloudInfo) : RangesState × RangesFile :=
  let updated := accumulateRanges r c.points
  (updated, writeRangesFile updated)

/-- One appended row of the scores file (evaluator.cpp:109-130): the
timestamp, then per configured level either its columns or nothing (the
unknown-level branch writes nothing), then the evaluated and total point
counts. -/
structure ScoreRow where
  timestamp : Nat
  levelScores : List (Option ScoreColumns)
  evaluatedPoints : Nat
  totalPoints : Nat
deriving DecidableEq, Repr

/-- `evaluated_levels_` as built by `Evaluator::setupFiles`
(evaluator.cpp:60-68): the enabled level names in the fixed order
point, cluster, object. -/
def evaluatedLevels (cfg : Config) : List String :=
  (if cfg.evaluate_point_level then ["point"] else []) ++
    (if cfg.evaluate_cluster_level then ["cluster"] else []) ++
      (if cfg.evaluate_object_level then ["object"] else [])

/-- The mutable state of one `Evaluator` plus the on-disk artifacts it
owns: the appended scores rows, the ranges file (absent until first
written), the timings file text, the range buckets, and
`gt_frame_counter_`. -/
structure EvaluatorState where
  scoresRows : List ScoreRow
  rangesFileOnDisk : Option RangesFile
  timingsFile : String
  ranges : RangesState
  gt_frame_counter : Nat
deriving DecidableEq, Repr

/-- The evaluator state right after `setupFiles` (evaluator.cpp:46-86):
no score rows yet, no ranges file written yet, empty buckets, frame
counter zero. -/
def initialState : EvaluatorState :=
  ⟨[], none, "", ⟨[], [], [], []⟩, 0⟩

/-- `Evaluator::writeScoresToFile` (evaluator.cpp:109-130), parametrised by
the levels to evaluate: filter the points in place, append one row built
from the per-level columns and the point counts, and when range evaluation
is enabled run `evaluateRanges` and rewrite the ranges file. -/
def writeScoresToFile (cfg : Config) (levels : List String)
    (s : EvaluatorState) (c : CloudInfo) : EvaluatorState :=
  let filtered := filterEvaluatedPoints cfg c
  let row : ScoreRow :=
    ⟨c.timestamp, levels.map (evaluateCloudAtLevel filtered.1),
     filtered.2, c.points.length⟩
  let s1 := { s with scoresRows := s.scoresRows ++ [row] }
  if cfg.evaluate_ranges then
    let rr := evaluateRanges s1.ranges filtered.1
    { s1 with ranges := rr.1, rangesFileOnDisk := some rr.2 }
  else s1

/-- `Evaluator::writeTimingsToFile` (evaluator.cpp:101-107): overwrite the
timings file with the current snapshot of the external timing collector. -/
def writeTimingsToFile (snapshot : String) (s : EvaluatorState) : EvaluatorState :=
  { s with timingsFile := snapshot }

/-- `Evaluator::evaluateFrame` (evaluator.cpp:88-99). The external
ground-truth handler is modelled by `handler`: it returns the relabelled
cloud when ground truth is available for the frame, `none` otherwise
(`labelCloudInfoIfAvailable` returning false without mutating). The
timings file is refreshed first in either case; on success one scores row
is appended and `gt_frame_counter_` is incremented. -/
def evaluateFrame (cfg : Config) (handler : CloudInfo → Option CloudInfo)
    (snapshot : String) (s : EvaluatorState) (c : CloudInfo) : EvaluatorState :=
  let s1 := writeTimingsToFile snapshot s
  match handler c with
  | none => s1
  | some labelled =>
    let s2 := writeScoresToFile cfg (evaluatedLevels cfg) s1 labelled
    { s2 with gt_frame_counter := s2.gt_frame_counter + 1 }

/-- A whole run of `evaluateFrame` calls, one per incoming frame. The
timing snapshot of each call is a function of the frame (the collector's
state evolves outside this core). -/
def runFrames (cfg : Config) (handler : CloudInfo → Option CloudInfo)
    (snapshot : CloudInfo → String) (s : EvaluatorState)
    (frames : List CloudInfo) : EvaluatorState :=
  frames.foldl (fun acc c => evaluateFrame cfg handler (snapshot c) acc c) s

/-- The output-directory choice of `Evaluator::setupFiles`
(evaluator.cpp:46-56): when the configured directory already exists, the
evaluator appends `"/" ++ timestamp` (timestamp formatted
`%Y_%m_%d-%H_%M_%S`) to the configured path and uses that. -/
def setupOutputDirectory (configured : String) (existsAlready : Bool)
    (timestamp : String) : String :=
  if existsAlready then configured ++ "/" ++ timestamp else configured

/-- A path lies strictly inside a directory when the directory path
followed by the separator is a prefix of it. -/
def pathInsideDir (dir path : String) : Bool :=
  (dir ++ "/").data.isPrefixOf path.data

/-- Modelled from the spec (§4.5, claim wording): a "sibling directory
name derived by appending a timestamp suffix" is the configured name with
a suffix appended that introduces no new path component, i.e. the suffix
contains no separator. -/
def SiblingBySuffix (configured derived : String) : Prop :=
  ∃ suffix, derived = configured ++ suffix ∧ Char.ofNat 47 ∉ suffix.data

/-! ### Concrete fixtures used by counterexamples and witnesses -/

/-- A configuration with range window `[0, 10]`, all levels and range
evaluation enabled. -/
def rangeConfig : Config := ⟨"out", 0, 10, true, true, true, true⟩

/-- A point outside the range window whose `ready_for_evaluation` flag is
already set on entry. -/
def outOfRangeReadyPoint : PointInfo := ⟨100, true, false, false, false, false⟩

/-- A one-point cloud carrying `outOfRangeReadyPoint`. -/
def staleCloud : CloudInfo := ⟨0, [outOfRangeReadyPoint]⟩

/-- An in-range point predicted static with static ground truth: a true
negative for the range buckets. -/
def tnPoint : PointInfo := ⟨5, false, false, false, false, false⟩

/-- A one-point cloud carrying `tnPoint`. -/
def tnCloud : CloudInfo := ⟨0, [tnPoint]⟩

/-- The three-point scenario of the specification: ground truth
[dynamic, dynamic, static], cluster-level prediction
[dynamic, static, static], all points in range and initially unflagged. -/
def cloud3 : CloudInfo :=
  ⟨7, [⟨1, false, false, true, false, true⟩,
       ⟨2, false, false, false, false, true⟩,
       ⟨3, false, false, false, false, false⟩]⟩

/-! ### Helper lemmas -/

lemma filterStep_ready (cfg : Config) (p : PointInfo) :
    (filterStep cfg p).1.ready_for_evaluation =
      (p.ready_for_evaluation || inRange cfg p) := by
  unfold filterStep
  split <;> simp_all

lemma filterStep_fields (cfg : Config) (p : PointInfo) :
    (filterStep cfg p).1.distance_to_sensor = p.distance_to_sensor ∧
    (filterStep cfg p).1.ever_free_level_dynamic = p.ever_free_level_dynamic ∧
    (filterStep cfg p).1.cluster_level_dynamic = p.cluster_level_dynamic ∧
    (filterStep cfg p).1.object_level_dynamic = p.object_level_dynamic ∧
    (filterStep cfg p).1.ground_truth_dynamic = p.ground_truth_dynamic := by
  unfold filterStep
  split <;> simp

lemma filterList_eq (cfg : Config) (ps : List PointInfo) :
    filterEvaluatedPointsList cfg ps =
      (ps.map (fun p => (filterStep cfg p).1), ps.countP (inRange cfg)) := by
  induction ps with
  | nil => rfl
  | cons p rest ih =>
    simp only [filterEvaluatedPointsList, ih, List.map_cons, List.countP_cons,
      Prod.mk.injEq]
    refine ⟨trivial, ?_⟩
    unfold filterStep
    split <;> simp_all <;> omega

lemma countMatrix_sum (check : PointInfo → Bool) (ps : List PointInfo) :
    (countMatrix check ps).tp + (countMatrix check ps).fp +
      (countMatrix check ps).tn + (countMatrix check ps).fn =
      ps.countP (fun p => p.ready_for_evaluation) := by
  induction ps with
  | nil => rfl
  | cons p rest ih =>
    simp only [countMatrix, List.countP_cons]
    cases hr : p.ready_for_evaluation <;> cases hc : check p <;>
      cases hg : p.ground_truth_dynamic <;>
        simp [hr, hc, hg] <;> omega

lemma accumulatePoint_lengths (r : RangesState) (p : PointInfo) :
    (accumulatePoint r p).range0.length + (accumulatePoint r p).range1.length +
      (accumulatePoint r p).range2.length + (accumulatePoint r p).range3.length =
      r.range0.length + r.range1.length + r.range2.length + r.range3.length +
        (if p.ready_for_evaluation then 1 else 0) := by
  unfold accumulatePoint
  cases hr : p.ready_for_evaluation <;> cases hc : p.cluster_level_dynamic <;>
    cases hg : p.ground_truth_dynamic <;> simp [hr, hc, hg] <;> omega

lemma accumulateRanges_lengths (ps : List PointInfo) :
    ∀ r : RangesState,
      (accumulateRanges r ps).range0.length + (accumulateRanges r ps).range1.length +
        (accumulateRanges r ps).range2.length + (accumulateRanges r ps).range3.length =
        r.range0.length + r.range1.length + r.range2.length + r.range3.length +
          ps.countP (fun p => p.ready_for_evaluation) := by
  induction ps with
  | nil => intro r; simp [accumulateRanges]
  | cons p rest ih =>
    intro r
    have hstep := accumulatePoint_lengths r p
    have htail := ih (accumulatePoint r p)
    simp only [accumulateRanges, List.foldl_cons] at htail ⊢
    rw [htail, hstep, List.countP_cons]
    cases p.ready_for_evaluation <;> simp <;> omega

lemma ratDiv_mem_unit (a b : Nat) (hle : a ≤ b) :
    0 ≤ (a : ℚ) / (b : ℚ) ∧ (a : ℚ) / (b : ℚ) ≤ 1 := by
  rcases Nat.eq_zero_or_pos b with hb | hb
  · subst hb
    interval_cases a
    simp
  · have hbq : (0 : ℚ) < (b : ℚ) := by exact_mod_cast hb
    constructor
    · exact div_nonneg (by positivity) (le_of_lt hbq)
    · rw [div_le_one hbq]
      exact_mod_cast hle

lemma writeScoresToFile_scoresRows (cfg : Config) (levels : List String)
    (s : EvaluatorState) (c : CloudInfo) :
    (writeScoresToFile cfg levels s c).scoresRows =
      s.scoresRows ++
        [⟨c.timestamp,
          levels.map (evaluateCloudAtLevel (filterEvaluatedPoints cfg c).1),
          (filterEvaluatedPoints cfg c).2, c.points.length⟩] := by
  unfold writeScoresToFile
  split <;> rfl

lemma writeScoresToFile_timings (cfg : Config) (levels : List String)
    (s : EvaluatorState) (c : CloudInfo) :
    (writeScoresToFile cfg levels s c).timingsFile = s.timingsFile := by
  unfold writeScoresToFile
  split <;> rfl

lemma writeScoresToFile_counter (cfg : Config) (levels : List String)
    (s : EvaluatorState) (c : CloudInfo) :
    (writeScoresToFile cfg levels s c).gt_frame_counter = s.gt_frame_counter := by
  unfold writeScoresToFile
  split <;> rfl

lemma evaluateFrame_rows_length (cfg : Config)
    (handler : CloudInfo → Option CloudInfo) (snapshot : String)
    (s : EvaluatorState) (c : CloudInfo) :
    (evaluateFrame cfg handler snapshot s c).scoresRows.length =
      s.scoresRows.length + (if (handler c).isSome then 1 else 0) := by
  unfold evaluateFrame
  cases h : handler c with
  | none => simp [writeTimingsToFile]
  | some labelled =>
    simp [writeScoresToFile_scoresRows, writeTimingsToFile]

lemma runFrames_rows_length (cfg : Config)
    (handler : CloudInfo → Option CloudInfo) (snapshot : CloudInfo → String)
    (frames : List CloudInfo) :
    ∀ s : EvaluatorState,
      (runFrames cfg handler snapshot s frames).scoresRows.length =
        s.scoresRows.length + frames.countP (fun c => (handler c).isSome) := by
  induction frames with
  | nil => intro s; simp [runFrames]
  | cons c rest ih =>
    intro s
    have htail := ih (evaluateFrame cfg handler (snapshot c) s c)
    simp only [runFrames, List.foldl_cons] at htail ⊢
    rw [htail, evaluateFrame_rows_length, List.countP_cons]
    cases h : (handler c).isSome <;> simp [h] <;> omega

lemma isPrefixOf_append (l t : List Char) : l.isPrefixOf (l ++ t) = true := by
  induction l with
  | nil => simp [List.isPrefixOf]
  | cons a rest ih => simp [List.isPrefixOf, ih]

/-! ### Claims -/

/-- C1: for every confusion matrix, `computePrecision` returns
`TP/(TP+FP)` and exactly 1 when `TP+FP = 0`; `computeRecall` returns
`TP/(TP+FN)` and exactly 1 when `TP+FN = 0`;
`computeIntersectionOverUnion` returns `TP/(TP+FP+FN)` and exactly 1 when
`TP+FP+FN = 0`. -/
theorem C1_metric_formulas (tp fp fn : Nat) :
    (tp + fp = 0 → computePrecision tp fp = 1) ∧
    (tp + fp ≠ 0 →
      computePrecision tp fp = (tp : ℚ) / (((tp + fp : Nat)) : ℚ)) ∧
    (tp + fn = 0 → computeRecall tp fn = 1) ∧
    (tp + fn ≠ 0 →
      computeRecall tp fn = (tp : ℚ) / (((tp + fn : Nat)) : ℚ)) ∧
    (tp + fp + fn = 0 → computeIntersectionOverUnion tp fp fn = 1) ∧
    (tp + fp + fn ≠ 0 →
      computeIntersectionOverUnion tp fp fn =
        (tp : ℚ) / (((tp + fp + fn : Nat)) : ℚ)) := by
  unfold computePrecision computeRecall computeIntersectionOverUnion
  refine ⟨fun h => by rw [if_pos h], fun h => by rw [if_neg h]; push_cast; ring,
          fun h => by rw [if_pos h], fun h => by rw [if_neg h]; push_cast; ring,
          fun h => by rw [if_pos h], fun h => by rw [if_neg h]; push_cast; ring⟩

/-- Witness for C1 at concrete matrices. -/
theorem C1_metric_formulas_witness :
    computePrecision 0 0 = 1 ∧
    computePrecision 1 3 = (1 : ℚ) / (((4 : Nat)) : ℚ) ∧
    computeRecall 0 0 = 1 ∧
    computeRecall 1 1 = (1 : ℚ) / (((2 : Nat)) : ℚ) ∧
    computeIntersectionOverUnion 0 0 0 = 1 ∧
    computeIntersectionOverUnion 1 1 2 = (1 : ℚ) / (((4 : Nat)) : ℚ) :=
  ⟨(C1_metric_formulas 0 0 0).1 rfl,
   (C1_metric_formulas 1 3 0).2.1 (by decide),
   (C1_metric_formulas 0 0 0).2.2.1 rfl,
   (C1_metric_formulas 1 0 1).2.2.2.1 (by decide),
   (C1_metric_formulas 0 0 0).2.2.2.2.1 rfl,
   (C1_metric_formulas 1 1 2).2.2.2.2.2 (by decide)⟩

/-- C5: for every confusion matrix (counters are natural numbers, hence
non-negative), precision, recall and IoU lie in `[0, 1]`. -/
theorem C5_metrics_unit_interval (tp fp fn : Nat) :
    (0 ≤ computePrecision tp fp ∧ computePrecision tp fp ≤ 1) ∧
    (0 ≤ computeRecall tp fn ∧ computeRecall tp fn ≤ 1) ∧
    (0 ≤ computeIntersectionOverUnion tp fp fn ∧
      computeIntersectionOverUnion tp fp fn ≤ 1) := by
  have h1 := ratDiv_mem_unit tp (tp + fp) (Nat.le_add_right _ _)
  have h2 := ratDiv_mem_unit tp (tp + fn) (Nat.le_add_right _ _)
  have h3 := ratDiv_mem_unit tp (tp + fp + fn) (by omega)
  push_cast at h1 h2 h3
  unfold computePrecision computeRecall computeIntersectionOverUnion
  refine ⟨?_, ?_, ?_⟩
  · split
    · norm_num
    · exact h1
  · split
    · norm_num
    · exact h2
  · split
    · norm_num
    · exact h3

/-- C3 counterexample: a point whose `ready_for_evaluation` flag is
already true on entry and whose distance (100) lies outside `[0, 10]`
keeps its flag set after the filter, so the flag is not equal to the
range predicate, and the returned count (0) differs from the number of
flagged points (1). -/
theorem C3_counterexample :
    ((filterEvaluatedPointsList rangeConfig [outOfRangeReadyPoint]).1.map
        (fun p => p.ready_for_evaluation) = [true]) ∧
    inRange rangeConfig outOfRangeReadyPoint = false ∧
    (filterEvaluatedPointsList rangeConfig [outOfRangeReadyPoint]).2 = 0 := by
  decide

/-- C3 amended: `filterEvaluatedPoints` maps every point through one step
that sets the eligibility flag to true when the distance lies in
`[min_range, max_range]` and leaves the point untouched otherwise (so the
resulting flag is the old flag OR the range predicate, never cleared),
returns the number of in-range points, and changes no field other than
the eligibility flag. -/
theorem C3_filter_effect (cfg : Config) (c : CloudInfo) :
    (filterEvaluatedPoints cfg c).1.timestamp = c.timestamp ∧
    (filterEvaluatedPoints cfg c).1.points =
      c.points.map (fun p => (filterStep cfg p).1) ∧
    (filterEvaluatedPoints cfg c).2 = c.points.countP (inRange cfg) ∧
    (∀ p : PointInfo,
      (filterStep cfg p).1.ready_for_evaluation =
        (p.ready_for_evaluation || inRange cfg p) ∧
      (filterStep cfg p).1.distance_to_sensor = p.distance_to_sensor ∧
      (filterStep cfg p).1.ever_free_level_dynamic = p.ever_free_level_dynamic ∧
      (filterStep cfg p).1.cluster_level_dynamic = p.cluster_level_dynamic ∧
      (filterStep cfg p).1.object_level_dynamic = p.object_level_dynamic ∧
      (filterStep cfg p).1.ground_truth_dynamic = p.ground_truth_dynamic) := by
  refine ⟨rfl, ?_, ?_, fun p => ⟨filterStep_ready cfg p, filterStep_fields cfg p⟩⟩
  · simp [filterEvaluatedPoints, filterList_eq]
  · simp [filterEvaluatedPoints, filterList_eq]

/-- C9: the filter step only ever sets the eligibility flag (new flag =
old flag OR range predicate, so a flag true on entry stays true whatever
the distance), and every flagged point is counted by the confusion-matrix
loop and lands in exactly one range bucket (the four bucket lengths grow
by exactly the number of flagged points). -/
theorem C9_flag_never_reset (cfg : Config) (check : PointInfo → Bool)
    (ps : List PointInfo) (r : RangesState) :
    (∀ p : PointInfo,
      (filterStep cfg p).1.ready_for_evaluation =
        (p.ready_for_evaluation || inRange cfg p)) ∧
    (countMatrix check ps).tp + (countMatrix check ps).fp +
      (countMatrix check ps).tn + (countMatrix check ps).fn =
      ps.countP (fun p => p.ready_for_evaluation) ∧
    (accumulateRanges r ps).range0.length + (accumulateRanges r ps).range1.length +
      (accumulateRanges r ps).range2.length + (accumulateRanges r ps).range3.length =
      r.range0.length + r.range1.length + r.range2.length + r.range3.length +
        ps.countP (fun p => p.ready_for_evaluation) :=
  ⟨fun p => filterStep_ready cfg p, countMatrix_sum check ps,
   accumulateRanges_lengths ps r⟩

/-- C4 counterexample: on a frame whose single point carries a stale
`ready_for_evaluation = true` flag but lies outside the range window, the
filter returns 0 while the point-level confusion matrix still counts the
point, so `TP+FP+TN+FN = 1 ≠ 0`. -/
theorem C4_counterexample :
    (evaluateCloudAtLevel (filterEvaluatedPoints rangeConfig staleCloud).1
        "point").map (fun cols => cols.tp + cols.fp + cols.tn + cols.fn) =
      some 1 ∧
    (filterEvaluatedPoints rangeConfig staleCloud).2 = 0 := by
  constructor
  · rfl
  · decide

/-- C4 amended: for every frame all of whose points enter with the
eligibility flag unset (the state in which the upstream pipeline hands
frames over), every level evaluated on the filtered frame yields a
confusion matrix with `TP+FP+TN+FN` equal to the eligible-point count
returned by the range filter. -/
theorem C4_matrix_sum_eq_filter_count (cfg : Config) (c : CloudInfo)
    (level : String) (cols : ScoreColumns)
    (hfresh : ∀ p ∈ c.points, p.ready_for_evaluation = false)
    (heval : evaluateCloudAtLevel (filterEvaluatedPoints cfg c).1 level =
      some cols) :
    cols.tp + cols.fp + cols.tn + cols.fn = (filterEvaluatedPoints cfg c).2 := by
  have hpts : (filterEvaluatedPoints cfg c).1.points =
      c.points.map (fun p => (filterStep cfg p).1) := by
    simp [filterEvaluatedPoints, filterList_eq]
  have hcount : (filterEvaluatedPoints cfg c).2 =
      c.points.countP (inRange cfg) := by
    simp [filterEvaluatedPoints, filterList_eq]
  unfold evaluateCloudAtLevel at heval
  cases hchk : checkLevel level with
  | none => rw [hchk] at heval; exact absurd heval (by simp)
  | some check =>
    rw [hchk] at heval
    simp only [Option.some.injEq] at heval
    have hsum := countMatrix_sum check (filterEvaluatedPoints cfg c).1.points
    rw [hpts, List.countP_map] at hsum
    have hcongr :
        c.points.countP
          ((fun p => p.ready_for_evaluation) ∘ fun p => (filterStep cfg p).1) =
          c.points.countP (inRange cfg) := by
      apply List.countP_congr
      intro a ha
      simp [Function.comp, filterStep_ready, hfresh a ha]
    rw [← heval]
    simp only [hpts] at hsum ⊢
    rw [hsum, hcongr, hcount]

/-- Witness for C4: the specification's three-point scenario (ground truth
[dynamic, dynamic, static], cluster prediction [dynamic, static, static],
all in range, flags initially unset) gives `1+0+1+1 = 3` eligible points. -/
theorem C4_matrix_sum_eq_filter_count_witness :
    (1 : Nat) + 0 + 1 + 1 = (filterEvaluatedPoints rangeConfig cloud3).2 := by
  have hfresh : ∀ p ∈ cloud3.points, p.ready_for_evaluation = false := by
    decide
  have heval : evaluateCloudAtLevel (filterEvaluatedPoints rangeConfig cloud3).1
      "cluster" = some ⟨1/2, 1, 1/2, 1, 1, 0, 1⟩ := by
    simp [evaluateCloudAtLevel, checkLevel, filterEvaluatedPoints,
          filterEvaluatedPointsList, filterStep, inRange, cloud3, rangeConfig,
          countMatrix, computePrecision, computeRecall,
          computeIntersectionOverUnion]
    norm_num
  exact C4_matrix_sum_eq_filter_count rangeConfig cloud3 "cluster"
    ⟨1/2, 1, 1/2, 1, 1, 0, 1⟩ hfresh heval

/-- C2 (code bug): the accumulation puts a true-negative point's distance
into bucket 2, but the file writer emits `ranges_[1]` on the FP, TN and FN
lines alike (evaluator.cpp:161,165,169), so on a frame whose single
eligible point is a true negative at distance 5 the TN line comes out
empty instead of listing 5. -/
theorem C2_ranges_file_bug :
    (evaluateRanges initialState.ranges
        (filterEvaluatedPoints rangeConfig tnCloud).1).1.range2 = [5] ∧
    (evaluateRanges initialState.ranges
        (filterEvaluatedPoints rangeConfig tnCloud).1).2.tnLine = [] ∧
    (evaluateRanges initialState.ranges
        (filterEvaluatedPoints rangeConfig tnCloud).1).2.fnLine = [] ∧
    (∀ r : RangesState, (writeRangesFile r).tnLine = r.range1 ∧
      (writeRangesFile r).fnLine = r.range1) := by
  refine ⟨by decide, by decide, by decide, fun r => ⟨rfl, rfl⟩⟩

/-- C6: an unknown level identifier makes `evaluateCloudAtLevel` return
without writing any columns, and a scores row written with such a level
among its configured levels still contains the normally evaluated columns
of every other level. -/
theorem C6_unknown_level_skipped (cfg : Config) (s : EvaluatorState)
    (c : CloudInfo) (u : String) (pre post : List String)
    (h1 : u ≠ "point") (h2 : u ≠ "cluster") (h3 : u ≠ "object") :
    evaluateCloudAtLevel (filterEvaluatedPoints cfg c).1 u = none ∧
    (writeScoresToFile cfg (pre ++ u :: post) s c).scoresRows =
      s.scoresRows ++
        [⟨c.timestamp,
          pre.map (evaluateCloudAtLevel (filterEvaluatedPoints cfg c).1) ++
            none :: post.map (evaluateCloudAtLevel (filterEvaluatedPoints cfg c).1),
          (filterEvaluatedPoints cfg c).2, c.points.length⟩] := by
  have hnone : evaluateCloudAtLevel (filterEvaluatedPoints cfg c).1 u = none := by
    unfold evaluateCloudAtLevel checkLevel
    simp [h1, h2, h3]
  refine ⟨hnone, ?_⟩
  rw [writeScoresToFile_scoresRows]
  simp [hnone]

/-- Witness for C6: the unknown level "banana" between "point" and
"cluster". -/
theorem C6_unknown_level_skipped_witness :
    evaluateCloudAtLevel (filterEvaluatedPoints rangeConfig cloud3).1
      "banana" = none ∧
    (writeScoresToFile rangeConfig (["point"] ++ "banana" :: ["cluster"])
        initialState cloud3).scoresRows =
      initialState.scoresRows ++
        [⟨cloud3.timestamp,
          (["point"] : List String).map
              (evaluateCloudAtLevel (filterEvaluatedPoints rangeConfig cloud3).1) ++
            none ::
              (["cluster"] : List String).map
                (evaluateCloudAtLevel (filterEvaluatedPoints rangeConfig cloud3).1),
          (filterEvaluatedPoints rangeConfig cloud3).2,
          cloud3.points.length⟩] :=
  C6_unknown_level_skipped rangeConfig initialState cloud3 "banana"
    ["point"] ["cluster"] (by decide) (by decide) (by decide)

/-- A ground-truth handler for which no frame ever has labels. -/
def handlerNone : CloudInfo → Option CloudInfo := fun _ => none

/-- A ground-truth handler that labels every frame (identity labelling). -/
def handlerSome : CloudInfo → Option CloudInfo := fun c => some c

/-- C7: every `evaluateFrame` call first rewrites the timings file with
the fresh snapshot unconditionally; when labelling fails the call changes
nothing beyond that; when labelling succeeds exactly one scores row is
appended; and over any run the number of scores rows grows by exactly the
number of successfully labelled frames. -/
theorem C7_frame_protocol (cfg : Config)
    (handler : CloudInfo → Option CloudInfo) (snapshot : String)
    (snapshots : CloudInfo → String) (s : EvaluatorState) (c : CloudInfo)
    (frames : List CloudInfo) :
    (evaluateFrame cfg handler snapshot s c).timingsFile = snapshot ∧
    (handler c = none →
      evaluateFrame cfg handler snapshot s c = writeTimingsToFile snapshot s) ∧
    (∀ l, handler c = some l →
      (evaluateFrame cfg handler snapshot s c).scoresRows.length =
        s.scoresRows.length + 1) ∧
    (runFrames cfg handler snapshots s frames).scoresRows.length =
      s.scoresRows.length + frames.countP (fun f => (handler f).isSome) := by
  refine ⟨?_, ?_, ?_, runFrames_rows_length cfg handler snapshots frames s⟩
  · unfold evaluateFrame
    cases h : handler c with
    | none => rfl
    | some l =>
      show (writeScoresToFile cfg (evaluatedLevels cfg)
        (writeTimingsToFile snapshot s) l).timingsFile = snapshot
      rw [writeScoresToFile_timings]
      rfl
  · intro h
    unfold evaluateFrame
    rw [h]
  · intro l h
    rw [evaluateFrame_rows_length, h]
    rfl

/-- Witness for C7: a labelling handler appends one row, a non-labelling
handler leaves everything but the timings file alone. -/
theorem C7_frame_protocol_witness :
    evaluateFrame rangeConfig handlerNone "snap" initialState cloud3 =
      writeTimingsToFile "snap" initialState ∧
    (evaluateFrame rangeConfig handlerSome "snap" initialState
        cloud3).scoresRows.length = initialState.scoresRows.length + 1 :=
  ⟨(C7_frame_protocol rangeConfig handlerNone "snap" (fun _ => "snap")
      initialState cloud3 []).2.1 rfl,
   (C7_frame_protocol rangeConfig handlerSome "snap" (fun _ => "snap")
      initialState cloud3 []).2.2.1 cloud3 rfl⟩

/-- C8 counterexample: with configured directory "out" and timestamp
2024_01_01-00_00_00, `setupFiles` derives "out/2024_01_01-00_00_00" — a
path strictly inside the pre-existing directory, not a sibling name
obtained by appending a separator-free suffix. -/
theorem C8_counterexample :
    setupOutputDirectory "out" true "2024_01_01-00_00_00" =
      "out/2024_01_01-00_00_00" ∧
    pathInsideDir "out"
      (setupOutputDirectory "out" true "2024_01_01-00_00_00") = true ∧
    ¬ SiblingBySuffix "out"
      (setupOutputDirectory "out" true "2024_01_01-00_00_00") := by
  refine ⟨by decide, by decide, ?_⟩
  rintro ⟨suffix, heq, hmem⟩
  apply hmem
  have hd := congrArg String.data heq
  rw [String.data_append] at hd
  have hsuffix : suffix.data =
      ((setupOutputDirectory "out" true "2024_01_01-00_00_00").data).drop 3 := by
    rw [hd]
    have h3 : ("out" : String).data.length = 3 := by decide
    rw [← h3, List.drop_left]
  rw [hsuffix]
  decide

/-- C8 amended: on collision the evaluator uses the configured directory
path extended by `"/" ++ timestamp` — a subdirectory *inside* the
pre-existing directory named by the `YYYY_MM_DD-HH_MM_SS` timestamp — and
the unchanged configured path otherwise. -/
theorem C8_directory_policy (configured timestamp : String) :
    setupOutputDirectory configured true timestamp =
      configured ++ "/" ++ timestamp ∧
    setupOutputDirectory configured false timestamp = configured ∧
    pathInsideDir configured
      (setupOutputDirectory configured true timestamp) = true := by
  refine ⟨rfl, rfl, ?_⟩
  show ((configured ++ "/").data).isPrefixOf
    (((configured ++ "/") ++ timestamp).data) = true
  rw [String.data_append]
  exact isPrefixOf_append _ _

/-- C10: when the ground-truth handler reports no labels, `evaluateFrame`
leaves the frame counter, the range buckets, the scores rows and the
ranges file exactly as they were (only the timings file is refreshed);
when labelling succeeds the frame counter grows by exactly one. -/
theorem C10_frame_effects (cfg : Config)
    (handler : CloudInfo → Option CloudInfo) (snapshot : String)
    (s : EvaluatorState) (c : CloudInfo) :
    (handler c = none →
      (evaluateFrame cfg handler snapshot s c).gt_frame_counter =
          s.gt_frame_counter ∧
      (evaluateFrame cfg handler snapshot s c).ranges = s.ranges ∧
      (evaluateFrame cfg handler snapshot s c).scoresRows = s.scoresRows ∧
      (evaluateFrame cfg handler snapshot s c).rangesFileOnDisk =
          s.rangesFileOnDisk ∧
      (evaluateFrame cfg handler snapshot s c).timingsFile = snapshot) ∧
    (∀ l, handler c = some l →
      (evaluateFrame cfg handler snapshot s c).gt_frame_counter =
        s.gt_frame_counter + 1) := by
  constructor
  · intro h
    unfold evaluateFrame
    rw [h]
    exact ⟨rfl, rfl, rfl, rfl, rfl⟩
  · intro l h
    unfold evaluateFrame
    rw [h]
    show (writeScoresToFile cfg (evaluatedLevels cfg)
        (writeTimingsToFile snapshot s) l).gt_frame_counter + 1 =
      s.gt_frame_counter + 1
    rw [writeScoresToFile_counter]
    rfl

/-- Witness for C10: the two handler outcomes at a concrete frame. -/
theorem C10_frame_effects_witness :
    (evaluateFrame rangeConfig handlerNone "snap" initialState
        cloud3).gt_frame_counter = initialState.gt_frame_counter ∧
    (evaluateFrame rangeConfig handlerSome "snap" initialState
        cloud3).gt_frame_counter = initialState.gt_frame_counter + 1 :=
  ⟨((C10_frame_effects rangeConfig handlerNone "snap" initialState
      cloud3).1 rfl).1,
   (C10_frame_effects rangeConfig handlerSome "snap" initialState
      cloud3).2 cloud3 rfl⟩

end MotionDetection
